import Mathlib

/-!
# Verification of the VoiceForge dispatch / rate-limiting core

Shallow embedding of the sliding-window rate limiter
(`backend/app/core/rate_limiter.py`) and of the remote GPU worker client
(`backend/app/services/gpu_client.py`), with theorems settling the spec
claims about them.

Modelling conventions:

* Timestamps (`time.time()` floats) are integers `ℤ` (whole seconds;
  every claim's scenario lives on integral times and every boundary
  comparison of the code survives the discretization).  The Redis
  sorted set stored under one rate-limit key maps the member
  `str(now)` to the score `now`; since `str` is injective on floats
  and the score always equals the member's numeric value, the set is
  modelled as a `Finset ℤ` of scores.  In particular `ZADD` with an already-present
  member only updates its score and does not enlarge the set, exactly as
  `insert` on a `Finset`.
* The Redis pipeline in `is_allowed` runs as a single `MULTI`/`EXEC`
  transaction (redis-py's `pipeline()` defaults to `transaction=True`),
  so one whole `is_allowed` call is an atomic step on the store and
  concurrent interleavings coincide with sequential orders of calls.
* `EXPIRE key (window_seconds + 1)` only drops a key whose every entry
  is already evictable by the next check; it is invisible to all the
  properties below, so it is not part of the state transition.
* The md5 hex digest used inside `_get_key` is an arbitrary function
  parameter `h : String → String`; no claim depends on its value.
-/

set_option autoImplicit false

namespace VoiceForge

/-- Score interval removal: `ZREMRANGEBYSCORE key lo hi` deletes every
member whose score lies in the closed interval `[lo, hi]`. -/
def zremrangebyscore (s : Finset ℤ) (lo hi : ℤ) : Finset ℤ :=
  s.filter (fun e => ¬ (lo ≤ e ∧ e ≤ hi))

/-- `ZADD key {str(now): now}`: inserts the member, or updates the score
of an existing equal member (which leaves the set unchanged). -/
def zadd (s : Finset ℤ) (t : ℤ) : Finset ℤ :=
  insert t s

/-- `ZCARD key`. -/
def zcard (s : Finset ℤ) : ℕ :=
  s.card

/-- The `rate_limit_info` dictionary built by `RateLimiter.is_allowed`. -/
structure RateLimitInfo where
  limit : ℤ
  remaining : ℤ
  reset : ℤ
  window_seconds : ℤ
  deriving Repr, DecidableEq

/-- `RateLimiter._get_key`: `"ratelimit:{identifier}[:{md5(endpoint)[:8]}]:{window}"`.
`h` stands for the md5 hex digest. -/
def get_key (h : String → String) (identifier : String)
    (endpoint : Option String) (window : String) : String :=
  let parts := ["ratelimit", identifier]
  let parts := match endpoint with
    | some e => parts ++ [((h e).take 8)]
    | none => parts
  let parts := parts ++ [window]
  String.intercalate ":" parts

/-- The storage key actually used by `RateLimiter.is_allowed`: it calls
`self._get_key(identifier, endpoint)` leaving the `window` parameter at
its default `"minute"`; `window_seconds` is accepted here only to state
claims about it and is not consulted. -/
def is_allowed_storage_key (h : String → String) (identifier : String)
    (endpoint : Option String) (window_seconds : ℤ) : String :=
  get_key h identifier endpoint "minute"

/-- Core of `RateLimiter.is_allowed` acting on the sorted set stored
under the chosen key: the pipeline
`zremrangebyscore key 0 (now - window_seconds)`, `zcard key`,
`zadd key {str(now): now}`, `expire key (window_seconds + 1)` executes
atomically; `current_count` is the pipeline's second result (the
cardinality after the removal and before the addition).  Returns the
`(allowed, info)` pair together with the key's new sorted set. -/
def is_allowedOn (s : Finset ℤ) (limit : ℤ) (window_seconds : ℤ)
    (now : ℤ) : (Bool × RateLimitInfo) × Finset ℤ :=
  let window_start := now - window_seconds
  let afterRemove := zremrangebyscore s 0 window_start
  let current_count : ℕ := zcard afterRemove
  let afterAdd := zadd afterRemove now
  let remaining : ℤ := max 0 (limit - current_count - 1)
  let reset_at : ℤ := now + window_seconds
  let info : RateLimitInfo :=
    ⟨limit, remaining, reset_at, window_seconds⟩
  if (current_count : ℤ) ≥ limit then ((false, info), afterAdd)
  else ((true, info), afterAdd)

/-- `RateLimiter.is_allowed` on the whole store (one sorted set per
key): looks up the key via `_get_key(identifier, endpoint)` (default
window label `"minute"`), runs the pipeline on that set and writes the
set back. -/
def is_allowed (h : String → String) (store : String → Finset ℤ)
    (identifier : String) (limit : ℤ) (window_seconds : ℤ)
    (endpoint : Option String) (now : ℤ) :
    (Bool × RateLimitInfo) × (String → Finset ℤ) :=
  let key := get_key h identifier endpoint "minute"
  let r := is_allowedOn (store key) limit window_seconds now
  (r.1, Function.update store key r.2)

/-- `RateLimiter.get_usage` acting on the key's sorted set:
`zremrangebyscore key 0 (now - window_seconds)` then `zcard key`.
Returns the count together with the key's new sorted set. -/
def get_usageOn (s : Finset ℤ) (window_seconds : ℤ) (now : ℤ) :
    ℕ × Finset ℤ :=
  let window_start := now - window_seconds
  let cleaned := zremrangebyscore s 0 window_start
  (zcard cleaned, cleaned)

/-- Redis connection state seen by `pipe.execute()`: `some s` when the
store is reachable and the key holds the sorted set `s`, `none` when
the store is unreachable. -/
def RedisConn : Type := Option (Finset ℤ)

/-- Error raised by the redis client when the server is unreachable. -/
inductive StoreError where
  | unreachable
  deriving Repr, DecidableEq

/-- `RateLimiter.is_allowed` including the store round-trip: the body
contains no `try`/`except`, so the `ConnectionError` raised by
`pipe.execute()` on an unreachable store propagates to the caller. -/
def is_allowedConn (conn : RedisConn) (limit : ℤ) (window_seconds : ℤ)
    (now : ℤ) :
    Except StoreError ((Bool × RateLimitInfo) × Finset ℤ) :=
  match conn with
  | none => .error .unreachable
  | some s => .ok (is_allowedOn s limit window_seconds now)

/-- A sequence of `is_allowed` checks against one key, executed in
arrival order (the pipeline's transaction makes each check atomic, so
any concurrent interleaving is equivalent to some sequential order).
`ts` lists each call's `now`; returns the list of admission decisions
and the final sorted set. -/
def runChecks (limit : ℤ) (window_seconds : ℤ) :
    List ℤ → Finset ℤ → List Bool × Finset ℤ
  | [], s => ([], s)
  | t :: ts, s =>
    let r := is_allowedOn s limit window_seconds t
    let rest := runChecks limit window_seconds ts r.2
    (r.1.1 :: rest.1, rest.2)

/-! ## Remote GPU worker client (`gpu_client.py`)

One HTTP attempt either yields a response with a status code and body
bytes, or raises `httpx.RequestError` (connection error / timeout)
before a response exists.  `response.raise_for_status()` raises
`httpx.HTTPStatusError` on any 4xx or 5xx status.  A backend is a
function from the attempt index to that attempt's outcome. -/

/-- Outcome of one `client.post`/`client.get` call. -/
inductive HttpResult where
  | response (status : ℕ) (body : List ℕ)
  | transportError
  deriving Repr, DecidableEq

/-- Exceptions caught by the retry loops. -/
inductive HttpError where
  | statusError (status : ℕ)
  | requestError
  deriving Repr, DecidableEq

/-- One attempt: the request itself may raise `httpx.RequestError`;
otherwise `response.raise_for_status()` raises `httpx.HTTPStatusError`
exactly when the status is an error status (4xx or 5xx). -/
def attemptOutcome : HttpResult → Except HttpError (List ℕ)
  | .response status body =>
    if 400 ≤ status then .error (.statusError status) else .ok body
  | .transportError => .error .requestError

/-- The exception carried by a failing attempt. -/
def failureOf : HttpResult → HttpError
  | .response status _ => .statusError status
  | .transportError => .requestError

/-- `GPUWorkerConfig` dataclass. -/
structure GPUWorkerConfig where
  enabled : Bool
  url : String
  timeout : ℚ := 300
  retry_attempts : ℕ := 3
  deriving Repr, DecidableEq

/-- Errors surfaced by a client operation: the `RuntimeError` raised
when remote mode is disabled, or the re-raised last HTTP exception. -/
inductive ClientError where
  | notEnabled
  | http (e : HttpError)
  deriving Repr, DecidableEq

/-- The shared retry skeleton
`for attempt in range(retry_attempts): try: post; raise_for_status; return
except: log; if attempt == retry_attempts - 1: raise`, started at attempt
index `i` with `k` iterations left.  The payload is built once before
the loop and re-sent verbatim on every attempt; the second component
logs the payload of each request actually issued.  Falling off the end
of `range(0)` returns Python's implicit `None`, modelled as `.ok none`. -/
def retryGo {π : Type} (send : ℕ → HttpResult) (payload : π) :
    ℕ → ℕ → Except HttpError (Option (List ℕ)) × List π
  | _, 0 => (.ok none, [])
  | i, k + 1 =>
    match attemptOutcome (send i) with
    | .ok body => (.ok (some body), [payload])
    | .error e =>
      if k = 0 then (.error e, [payload])
      else
        let rest := retryGo send payload (i + 1) k
        (rest.1, payload :: rest.2)

/-- The retry loop of a client operation: `retry_attempts` iterations
beginning at attempt 0. -/
def retryLoop {π : Type} (send : ℕ → HttpResult) (payload : π)
    (retry_attempts : ℕ) : Except HttpError (Option (List ℕ)) × List π :=
  retryGo send payload 0 retry_attempts

/-- Lift the retry loop's outcome into the operation's error type. -/
def liftHttp {α : Type} : Except HttpError α → Except ClientError α
  | .ok a => .ok a
  | .error e => .error (.http e)

/-- JSON payload of `POST /tts/generate`. -/
structure TTSPayload where
  text : String
  language : String
  speed : ℚ
  output_format : String
  speaker_wav_url : Option String
  deriving Repr, DecidableEq

/-- Multipart payload of `POST /stt/transcribe`. -/
structure STTPayload where
  filename : String
  audio : List ℕ
  task : String
  language : Option String
  deriving Repr, DecidableEq

/-- JSON payload of `POST /sfx/generate`. -/
structure SFXPayload where
  prompt : String
  duration : ℚ
  num_inference_steps : ℕ
  deriving Repr, DecidableEq

/-- Multipart payload of `POST /isolation/separate`. -/
structure IsolationPayload where
  filename : String
  audio : List ℕ
  stems : String
  deriving Repr, DecidableEq

/-- Multipart payload of `POST /voice/clone`. -/
structure ClonePayload where
  filenames : List String
  audio_files : List (List ℕ)
  voice_name : String
  deriving Repr, DecidableEq

/-- `RemoteGPUClient.generate_tts`: raises `RuntimeError` before any
network I/O when `config.enabled` is false; otherwise builds the JSON
payload once and runs the retry loop (both `except` clauses —
`HTTPStatusError` and `RequestError` — behave identically).  Returns
the operation's outcome and the log of requests issued. -/
def generate_tts (cfg : GPUWorkerConfig) (send : ℕ → HttpResult)
    (text : String) (language : String) (speaker_wav_url : Option String)
    (speed : ℚ) (output_format : String) :
    Except ClientError (Option (List ℕ)) × List TTSPayload :=
  if cfg.enabled = false then (.error .notEnabled, [])
  else
    let payload : TTSPayload :=
      ⟨text, language, speed, output_format, speaker_wav_url⟩
    let r := retryLoop send payload cfg.retry_attempts
    (liftHttp r.1, r.2)

/-- `RemoteGPUClient.transcribe_audio`: same gate and retry skeleton
over the multipart payload. -/
def transcribe_audio (cfg : GPUWorkerConfig) (send : ℕ → HttpResult)
    (audio_data : List ℕ) (filename : String) (language : Option String)
    (task : String) :
    Except ClientError (Option (List ℕ)) × List STTPayload :=
  if cfg.enabled = false then (.error .notEnabled, [])
  else
    let payload : STTPayload := ⟨filename, audio_data, task, language⟩
    let r := retryLoop send payload cfg.retry_attempts
    (liftHttp r.1, r.2)

/-- `RemoteGPUClient.generate_sound_effect`: same gate and retry
skeleton (its single `except Exception` clause covers both exception
kinds). -/
def generate_sound_effect (cfg : GPUWorkerConfig) (send : ℕ → HttpResult)
    (prompt : String) (duration : ℚ) (num_inference_steps : ℕ) :
    Except ClientError (Option (List ℕ)) × List SFXPayload :=
  if cfg.enabled = false then (.error .notEnabled, [])
  else
    let payload : SFXPayload := ⟨prompt, duration, num_inference_steps⟩
    let r := retryLoop send payload cfg.retry_attempts
    (liftHttp r.1, r.2)

/-- `RemoteGPUClient.isolate_vocals`: same gate and retry skeleton. -/
def isolate_vocals (cfg : GPUWorkerConfig) (send : ℕ → HttpResult)
    (audio_data : List ℕ) (filename : String) (stems : String) :
    Except ClientError (Option (List ℕ)) × List IsolationPayload :=
  if cfg.enabled = false then (.error .notEnabled, [])
  else
    let payload : IsolationPayload := ⟨filename, audio_data, stems⟩
    let r := retryLoop send payload cfg.retry_attempts
    (liftHttp r.1, r.2)

/-- `RemoteGPUClient.clone_voice`: same gate and retry skeleton. -/
def clone_voice (cfg : GPUWorkerConfig) (send : ℕ → HttpResult)
    (audio_files : List (List ℕ)) (filenames : List String)
    (voice_name : String) :
    Except ClientError (Option (List ℕ)) × List ClonePayload :=
  if cfg.enabled = false then (.error .notEnabled, [])
  else
    let payload : ClonePayload := ⟨filenames, audio_files, voice_name⟩
    let r := retryLoop send payload cfg.retry_attempts
    (liftHttp r.1, r.2)

/-- Result of `RemoteGPUClient.health_check`: either the decoded body
of a 2xx `/health` response, or the `{"status": "offline", "error": …}`
dictionary built in the `except` clause. -/
inductive HealthResult where
  | ok (body : List ℕ)
  | offline (error : HttpError)
  deriving Repr, DecidableEq

/-- `RemoteGPUClient.health_check`: one `GET /health` with
`raise_for_status`, the whole body wrapped in `try`/`except Exception`
returning the offline status object; no loop, no retry.  The second
component counts requests issued. -/
def health_check (r : HttpResult) : HealthResult × ℕ :=
  match attemptOutcome r with
  | .ok body => (.ok body, 1)
  | .error e => (.offline e, 1)

/-! ## Claim-side definitions

Transcriptions of claim wordings, kept separate from the embeddings
above so that the code and the spec can be compared. -/

/-- Transcription of claim C1's wording of the admission check: evict
all timestamps strictly older than `now - windowSeconds`; count the
remaining entries; if the count is below the limit, record `now` as a
new entry and return allowed with `remaining = limit - count - 1`,
otherwise return not-allowed with `remaining = 0` WITHOUT recording a
new entry.  Result: `((allowed, remaining), new sorted set)`. -/
def is_allowedOn_claimC1 (s : Finset ℤ) (limit : ℤ) (window_seconds : ℤ)
    (now : ℤ) : (Bool × ℤ) × Finset ℤ :=
  let kept := s.filter (fun e => ¬ e < now - window_seconds)
  let count := kept.card
  if (count : ℤ) < limit then ((true, limit - count - 1), insert now kept)
  else ((false, 0), kept)

/-- The admission check as the code actually behaves (amended claim
C1): evict all timestamps `≤ now - windowSeconds` (and `≥ 0`), count
the remaining entries, then record `now` UNCONDITIONALLY; allow
exactly when the pre-record count is below the limit, with
`remaining = limit - count - 1` on admission and `0` on rejection. -/
def is_allowedOn_amendedC1 (s : Finset ℤ) (limit : ℤ)
    (window_seconds : ℤ) (now : ℤ) : (Bool × ℤ) × Finset ℤ :=
  let kept := s.filter (fun e => ¬ (0 ≤ e ∧ e ≤ now - window_seconds))
  let count := kept.card
  let recorded := insert now kept
  if (count : ℤ) < limit then ((true, limit - count - 1), recorded)
  else ((false, 0), recorded)

/-- A transient failure in the sense of the spec: connection error or
timeout (`httpx.RequestError`) or a 5xx response. -/
def IsTransientFailure : HttpResult → Prop
  | .response status _ => 500 ≤ status
  | .transportError => True

/-- A 4xx (client/validation) response. -/
def Is4xxResponse : HttpResult → Prop
  | .response status _ => 400 ≤ status ∧ status < 500
  | .transportError => False

/-! ## Helper lemmas -/

/-- A transient failure makes the attempt raise its exception. -/
lemma attemptOutcome_transient {r : HttpResult}
    (h : IsTransientFailure r) :
    attemptOutcome r = .error (failureOf r) := by
  cases r with
  | response status body =>
    simp only [IsTransientFailure] at h
    simp only [attemptOutcome, failureOf, if_pos (by omega : 400 ≤ status)]
  | transportError => rfl

/-- A 4xx response makes the attempt raise its exception. -/
lemma attemptOutcome_4xx {r : HttpResult}
    (h : Is4xxResponse r) :
    attemptOutcome r = .error (failureOf r) := by
  cases r with
  | response status body =>
    simp only [Is4xxResponse] at h
    simp only [attemptOutcome, failureOf, if_pos (by omega : 400 ≤ status)]
  | transportError => cases h

/-- If every attempt in the range raises, the retry loop issues exactly
`k` requests with the unchanged payload and re-raises the exception of
the last attempt. -/
lemma retryGo_all_error {π : Type} (send : ℕ → HttpResult) (p : π) :
    ∀ (k i : ℕ), 1 ≤ k →
      (∀ j, i ≤ j → j < i + k →
        attemptOutcome (send j) = .error (failureOf (send j))) →
      retryGo send p i k
        = (.error (failureOf (send (i + k - 1))), List.replicate k p) := by
  intro k
  induction k with
  | zero => intro i h; omega
  | succ k ih =>
    intro i _ hfail
    have hi : attemptOutcome (send i) = .error (failureOf (send i)) :=
      hfail i le_rfl (by omega)
    by_cases hk : k = 0
    · subst hk
      simp [retryGo, hi]
    · have hrest := ih (i + 1) (by omega)
        (fun j h1 h2 => hfail j (by omega) (by omega))
      have harith : i + 1 + k - 1 = i + (k + 1) - 1 := by omega
      simp only [retryGo, hi, if_neg hk, hrest, harith, List.replicate_succ]

/-- The common body shared by all five client operations once the
`enabled` gate has passed: if every attempt in range raises, the
operation issues exactly `n` requests with the unchanged payload and
surfaces the last attempt's exception. -/
lemma clientOp_all_error {π : Type} (send : ℕ → HttpResult)
    (payload : π) (n : ℕ) (hn : 1 ≤ n)
    (hfail : ∀ j, j < n →
      attemptOutcome (send j) = .error (failureOf (send j))) :
    (liftHttp (retryLoop send payload n).1, (retryLoop send payload n).2)
      = ((.error (.http (failureOf (send (n - 1))))
            : Except ClientError (Option (List ℕ))),
         List.replicate n payload) := by
  have hloop := retryGo_all_error send payload n 0 hn
    (fun j _ hj => hfail j (by omega))
  rw [retryLoop, hloop]
  simp only [liftHttp, Nat.zero_add]

/-- Evicting up to a lower bound and then up to a higher bound is the
same as evicting up to the higher bound alone. -/
lemma zrem_zrem (s : Finset ℤ) (a b : ℤ) (hab : a ≤ b) :
    zremrangebyscore (zremrangebyscore s 0 a) 0 b
      = zremrangebyscore s 0 b := by
  unfold zremrangebyscore
  ext e
  simp only [Finset.mem_filter]
  constructor
  · rintro ⟨⟨hs, -⟩, hb⟩
    exact ⟨hs, hb⟩
  · rintro ⟨hs, hb⟩
    exact ⟨⟨hs, fun hc => hb ⟨hc.1, by omega⟩⟩, hb⟩

/-- For pairwise-distinct timestamps all inside the window that starts
at `T`, against an initial set whose entries are no older than `T`:
no check evicts anything, each check records a fresh entry, and the
`i`-th check (0-based) is admitted exactly when `s.card + i` is below
the limit. -/
lemma runChecks_in_window (limit window_seconds T : ℤ) :
    ∀ (ts : List ℤ) (s : Finset ℤ),
      ts.Nodup →
      (∀ t ∈ ts, T ≤ t ∧ t < T + window_seconds) →
      (∀ e ∈ s, T ≤ e) →
      (∀ t ∈ ts, t ∉ s) →
      (runChecks limit window_seconds ts s).1
        = (List.range ts.length).map
            (fun i : ℕ => decide (((s.card + i : ℕ) : ℤ) < limit)) := by
  intro ts
  induction ts with
  | nil => intro s _ _ _ _; simp [runChecks]
  | cons t ts ih =>
    intro s hnd hin hs hfresh
    obtain ⟨htT, htw⟩ := hin t (List.mem_cons_self t ts)
    have hnd' := List.nodup_cons.mp hnd
    have hfilter :
        s.filter (fun e => ¬ (0 ≤ e ∧ e ≤ t - window_seconds)) = s := by
      apply Finset.filter_true_of_mem
      intro e he hc
      have := hs e he
      omega
    have htnew : t ∉ s := hfresh t (List.mem_cons_self t ts)
    have hstep :
        is_allowedOn s limit window_seconds t
          = ((if ((s.card : ℤ) ≥ limit) then false else true,
              ⟨limit, max 0 (limit - s.card - 1), t + window_seconds,
                window_seconds⟩),
             insert t s) := by
      simp only [is_allowedOn, zremrangebyscore, zadd, zcard, hfilter]
      by_cases h : ((s.card : ℤ) ≥ limit)
      · rw [if_pos h, if_pos h]
      · rw [if_neg h, if_neg h]
    have hih := ih (insert t s) hnd'.2
      (fun u hu => hin u (List.mem_cons_of_mem t hu))
      (fun e he => by
        rcases Finset.mem_insert.mp he with rfl | he'
        · exact htT
        · exact hs e he')
      (fun u hu => by
        rw [Finset.mem_insert]
        rintro (rfl | hu')
        · exact hnd'.1 hu
        · exact hfresh u (List.mem_cons_of_mem t hu) hu')
    have hcard : (insert t s).card = s.card + 1 :=
      Finset.card_insert_of_not_mem htnew
    simp only [runChecks, hstep, hih, hcard, List.length_cons,
      List.range_succ_eq_map, List.map_cons, List.map_map]
    refine List.cons_eq_cons.mpr ⟨?_, ?_⟩
    · by_cases h : ((s.card : ℤ) ≥ limit)
      · rw [if_pos h]
        symm
        rw [decide_eq_false_iff_not]
        push_cast
        omega
      · rw [if_neg h]
        symm
        rw [decide_eq_true_eq]
        push_cast
        omega
    · apply List.map_congr_left
      intro i _
      rw [Function.comp_apply, decide_eq_decide]
      push_cast
      omega

/-- The decision pattern of `n` in-window checks from an empty set:
the first `min L n` are admitted and the rest are rejected. -/
lemma map_range_decide_lt (L : ℤ) (n : ℕ) (h0 : 0 ≤ L)
    (hn : L.toNat ≤ n) :
    (List.range n).map (fun i : ℕ => decide ((i : ℤ) < L))
      = List.replicate L.toNat true ++ List.replicate (n - L.toNat) false := by
  obtain ⟨m, rfl⟩ : ∃ m, n = L.toNat + m := ⟨n - L.toNat, by omega⟩
  rw [List.range_add, List.map_append, List.map_map]
  have hL : ((L.toNat : ℤ)) = L := Int.toNat_of_nonneg h0
  congr 1
  · apply List.eq_replicate_iff.mpr
    refine ⟨by simp, ?_⟩
    intro b hb
    obtain ⟨i, hi, rfl⟩ := List.mem_map.mp hb
    rw [decide_eq_true_eq]
    have := List.mem_range.mp hi
    omega
  · have hmm : L.toNat + m - L.toNat = m := by omega
    rw [hmm]
    apply List.eq_replicate_iff.mpr
    refine ⟨by simp, ?_⟩
    intro b hb
    obtain ⟨i, hi, rfl⟩ := List.mem_map.mp hb
    rw [Function.comp_apply, decide_eq_false_iff_not]
    push_cast
    omega

/-! ## Claim theorems -/

/-- C1 counterexample: the claim's admission check and the code
diverge on two concrete inputs.  With the set `{0}`, limit 1,
window 60 at `now = 30`, the claim says a rejected check records no
new entry, but the code's pipeline executes `ZADD` unconditionally, so
`30` is recorded even though the check rejects.  With the set `{1}`,
limit 1, window 60 at `now = 61`, the claim evicts only entries
strictly older than `now - window = 1` and so rejects, but the code's
`ZREMRANGEBYSCORE 0 1` also evicts the boundary entry `1` and admits. -/
theorem C1_counterexample :
    (is_allowedOn_claimC1 {0} 1 60 30 = ((false, 0), {0})
      ∧ (is_allowedOn {0} 1 60 30).1.1 = false
      ∧ (is_allowedOn {0} 1 60 30).2 = {30, 0})
    ∧ ((is_allowedOn_claimC1 {1} 1 60 61).1.1 = false
      ∧ (is_allowedOn {1} 1 60 61).1.1 = true) := by
  decide

/-- C1 (amended): on every admission check the code evicts all
timestamps lying in `[0, now - windowSeconds]` (boundary included),
counts the remaining entries, and then records `now` unconditionally
(also on rejection); it admits exactly when the pre-record count is
below the limit, returning `remaining = limit - count - 1` on
admission and `remaining = 0` on rejection. -/
theorem C1_amended_check_behaviour (s : Finset ℤ)
    (limit window_seconds now : ℤ) :
    (((is_allowedOn s limit window_seconds now).1.1,
      (is_allowedOn s limit window_seconds now).1.2.remaining),
      (is_allowedOn s limit window_seconds now).2)
      = is_allowedOn_amendedC1 s limit window_seconds now := by
  simp only [is_allowedOn, is_allowedOn_amendedC1, zremrangebyscore,
    zadd, zcard]
  by_cases h :
      ((Finset.filter (fun e => ¬ (0 ≤ e ∧ e ≤ now - window_seconds))
        s).card : ℤ) ≥ limit
  · rw [if_pos h, if_neg (not_lt.mpr h)]
    have hmax : max 0 (limit -
        ((Finset.filter (fun e => ¬ (0 ≤ e ∧ e ≤ now - window_seconds))
          s).card : ℤ) - 1) = 0 :=
      max_eq_left (by omega)
    exact Prod.ext_iff.mpr ⟨Prod.ext_iff.mpr ⟨rfl, hmax⟩, rfl⟩
  · rw [if_neg h, if_pos (not_le.mp h)]
    have hmax : max 0 (limit -
        ((Finset.filter (fun e => ¬ (0 ≤ e ∧ e ≤ now - window_seconds))
          s).card : ℤ) - 1) = limit -
        ((Finset.filter (fun e => ¬ (0 ≤ e ∧ e ≤ now - window_seconds))
          s).card : ℤ) - 1 :=
      max_eq_right (by have := lt_of_not_ge h; omega)
    exact Prod.ext_iff.mpr ⟨Prod.ext_iff.mpr ⟨rfl, hmax⟩, rfl⟩

/-- C4 counterexample: with the backing store unreachable, the
admission check does not return `allowed = true`; it raises the
store's connection error to the caller (the claim's fail-open policy
is absent from the code). -/
theorem C4_counterexample :
    is_allowedConn none 5 60 0 = .error .unreachable
    ∧ ¬ ∃ r, is_allowedConn none 5 60 0 = .ok r := by
  refine ⟨rfl, ?_⟩
  rintro ⟨r, hr⟩
  simp [is_allowedConn] at hr

/-- C4 (amended): for every admission check, if the backing store is
unreachable the check raises the store error to the caller (fail
closed by exception); no fail-open handling exists in the code. -/
theorem C4_amended_unreachable_raises (limit window_seconds now : ℤ) :
    is_allowedConn none limit window_seconds now = .error .unreachable :=
  rfl

/-- C6 counterexample: three concurrent checks against one identifier
whose calls observe the same clock reading `10`, with limit 2 and
window 60, are ALL admitted (3 ≠ 2 admitted): the sorted-set member is
`str(now)`, so equal timestamps collapse to one entry and the count
never reaches the limit. -/
theorem C6_counterexample :
    (runChecks 2 60 [10, 10, 10] ∅).1 = [true, true, true]
    ∧ (runChecks 2 60 [10, 10, 10] ∅).1.count true = 3 := by
  decide

/-- C6 (amended): among N concurrent admission checks against the same
identifier within one window, PROVIDED each call observes a distinct
timestamp, exactly L are admitted and N − L are rejected, regardless
of arrival interleaving (each check's pipeline is one atomic
transaction, so every interleaving equals some sequential order,
modelled by the order of `ts`). -/
theorem C6_amended_distinct_times (limit window_seconds T : ℤ)
    (ts : List ℤ) (h0 : 0 ≤ limit) (hL : limit.toNat ≤ ts.length)
    (hnd : ts.Nodup)
    (hin : ∀ t ∈ ts, T ≤ t ∧ t < T + window_seconds) :
    (runChecks limit window_seconds ts ∅).1
      = List.replicate limit.toNat true
        ++ List.replicate (ts.length - limit.toNat) false
    ∧ (runChecks limit window_seconds ts ∅).1.count true = limit.toNat
    ∧ (runChecks limit window_seconds ts ∅).1.count false
        = ts.length - limit.toNat := by
  have hmain := runChecks_in_window limit window_seconds T ts ∅ hnd hin
    (by simp) (by simp)
  have hfun : (runChecks limit window_seconds ts ∅).1
      = (List.range ts.length).map
          (fun i : ℕ => decide ((i : ℤ) < limit)) := by
    rw [hmain]
    apply List.map_congr_left
    intro i _
    rw [decide_eq_decide]
    simp
  rw [hfun, map_range_decide_lt limit ts.length h0 hL]
  refine ⟨rfl, ?_, ?_⟩
  · rw [List.count_append, List.count_replicate_self,
      List.count_replicate]
    simp
  · rw [List.count_append, List.count_replicate,
      List.count_replicate_self]
    simp

/-- C6 (amended) witness: three distinct-timestamp checks with limit 2
inside the window starting at 0: exactly two admitted, one rejected. -/
theorem C6_amended_distinct_times_witness :
    (runChecks 2 60 [3, 1, 2] ∅).1
      = List.replicate (2 : ℤ).toNat true
        ++ List.replicate (([3, 1, 2] : List ℤ).length - (2 : ℤ).toNat) false
    ∧ (runChecks 2 60 [3, 1, 2] ∅).1.count true = (2 : ℤ).toNat
    ∧ (runChecks 2 60 [3, 1, 2] ∅).1.count false
        = ([3, 1, 2] : List ℤ).length - (2 : ℤ).toNat :=
  C6_amended_distinct_times 2 60 0 [3, 1, 2] (by decide) (by decide)
    (by decide) (by decide)

/-- C7 counterexample: with limit 3 and window 60, four checks that
all observe literally `t = 0` are ALL admitted — the fourth is NOT
rejected, because the four `ZADD`s of the member `str(0)` collapse to
a single entry. -/
theorem C7_counterexample :
    (runChecks 3 60 [0, 0, 0, 0] ∅).1 = [true, true, true, true]
    ∧ (runChecks 3 60 [0, 0, 0, 0] ∅).2 = {0} := by
  decide

/-- C7 (amended): with limit 3 and window 60, four checks at the
DISTINCT instants t = 0, 1, 2, 3 behave as the claim intends — the
first three are admitted and the fourth rejected — and a fifth check
at t = 61 is admitted because enough early entries (those at 0 and 1,
i.e. scores `≤ 61 - 60`) have been evicted; the entries at 2 and 3
survive the eviction. -/
theorem C7_amended_scenario :
    (runChecks 3 60 [0, 1, 2, 3, 61] ∅).1
      = [true, true, true, false, true]
    ∧ (runChecks 3 60 [0, 1, 2, 3, 61] ∅).2 = {61, 2, 3} := by
  decide

/-- C8 counterexample: two checks for the same identifier and endpoint
but different window lengths (60 vs 3600) derive the SAME storage key,
not distinct ones; behaviourally, a first check under window 60
consumes the quota seen by a later check under window 3600 (which is
rejected with limit 1 even though its own window never admitted
anything). -/
theorem C8_counterexample :
    is_allowed_storage_key (fun _ => "h") "user-1" (some "/api/tts") 60
      = is_allowed_storage_key (fun _ => "h") "user-1" (some "/api/tts") 3600
    ∧ (is_allowed (fun _ => "h")
        ((is_allowed (fun _ => "h") (fun _ => ∅) "user-1" 1 60
          (some "/api/tts") 0).2)
        "user-1" 1 3600 (some "/api/tts") 1).1.1 = false :=
  ⟨rfl, by decide⟩

/-- C8 (amended): the storage key used by an admission check is
derived from the identifier and the endpoint only; the key's window
component is the constant string `"minute"` (the `window` parameter of
`_get_key` is never passed), so checks with different window lengths
share one counter, and a check touches no key other than its own. -/
theorem C8_amended_key_components (h : String → String)
    (identifier : String) (endpoint : Option String)
    (w1 w2 limit now : ℤ) (store : String → Finset ℤ) :
    is_allowed_storage_key h identifier endpoint w1
      = is_allowed_storage_key h identifier endpoint w2
    ∧ ∀ k, k ≠ is_allowed_storage_key h identifier endpoint w1 →
        (is_allowed h store identifier limit w1 endpoint now).2 k
          = store k := by
  refine ⟨rfl, ?_⟩
  intro k hk
  simp only [is_allowed, is_allowed_storage_key] at *
  exact Function.update_noteq hk _ _

/-- C8 (amended) witness at a concrete hash, identifier, and store. -/
theorem C8_amended_key_components_witness :
    is_allowed_storage_key (fun _ => "x") "u" none 60
      = is_allowed_storage_key (fun _ => "x") "u" none 3600
    ∧ (is_allowed (fun _ => "x") (fun _ => ∅) "u" 1 60 none 0).2 "other"
        = ∅ :=
  ⟨(C8_amended_key_components (fun _ => "x") "u" none 60 3600 1 0
      (fun _ => ∅)).1,
   (C8_amended_key_components (fun _ => "x") "u" none 60 3600 1 0
      (fun _ => ∅)).2 "other" (by decide)⟩

/-- C2: against a backend whose every response is a transient failure
(connection error, timeout, or 5xx), EVERY inference operation of the
client (synthesize, transcribe, sfx-generate, isolate, clone-voice)
with `retry_attempts = N ≥ 1` issues exactly N requests, every one
with the same payload built once before the loop, and then re-raises
the exception of the last attempt rather than swallowing it. -/
theorem C2_retry_exhaustion (cfg : GPUWorkerConfig)
    (send : ℕ → HttpResult) (text language : String)
    (speaker_wav_url : Option String) (speed : ℚ)
    (output_format : String) (audio_data : List ℕ) (filename : String)
    (language2 : Option String) (task : String) (prompt : String)
    (duration : ℚ) (num_inference_steps : ℕ) (audio_data2 : List ℕ)
    (filename2 : String) (stems : String)
    (audio_files : List (List ℕ)) (filenames : List String)
    (voice_name : String)
    (hen : cfg.enabled = true) (hn : 1 ≤ cfg.retry_attempts)
    (hfail : ∀ j, j < cfg.retry_attempts → IsTransientFailure (send j)) :
    generate_tts cfg send text language speaker_wav_url speed
        output_format
      = (.error (.http (failureOf (send (cfg.retry_attempts - 1)))),
         List.replicate cfg.retry_attempts
           ⟨text, language, speed, output_format, speaker_wav_url⟩)
    ∧ transcribe_audio cfg send audio_data filename language2 task
      = (.error (.http (failureOf (send (cfg.retry_attempts - 1)))),
         List.replicate cfg.retry_attempts
           ⟨filename, audio_data, task, language2⟩)
    ∧ generate_sound_effect cfg send prompt duration
        num_inference_steps
      = (.error (.http (failureOf (send (cfg.retry_attempts - 1)))),
         List.replicate cfg.retry_attempts
           ⟨prompt, duration, num_inference_steps⟩)
    ∧ isolate_vocals cfg send audio_data2 filename2 stems
      = (.error (.http (failureOf (send (cfg.retry_attempts - 1)))),
         List.replicate cfg.retry_attempts
           ⟨filename2, audio_data2, stems⟩)
    ∧ clone_voice cfg send audio_files filenames voice_name
      = (.error (.http (failureOf (send (cfg.retry_attempts - 1)))),
         List.replicate cfg.retry_attempts
           ⟨filenames, audio_files, voice_name⟩) := by
  have hout : ∀ j, j < cfg.retry_attempts →
      attemptOutcome (send j) = .error (failureOf (send j)) :=
    fun j hj => attemptOutcome_transient (hfail j hj)
  refine ⟨?_, ?_, ?_, ?_, ?_⟩ <;>
  · simp only [generate_tts, transcribe_audio, generate_sound_effect,
      isolate_vocals, clone_voice, hen]
    rw [if_neg (by simp)]
    exact clientOp_all_error send _ cfg.retry_attempts hn hout

/-- C2 witness: a concrete client with three attempts against an
always-unreachable backend makes, for each of the five operations,
exactly three identically-shaped requests and raises the connection
error. -/
theorem C2_retry_exhaustion_witness :
    generate_tts ⟨true, "http://gpu:8001", 300, 3⟩
        (fun _ => .transportError) "hello" "en" none 1 "wav"
      = (.error (.http .requestError),
         List.replicate 3 ⟨"hello", "en", 1, "wav", none⟩)
    ∧ transcribe_audio ⟨true, "http://gpu:8001", 300, 3⟩
        (fun _ => .transportError) [7] "audio.wav" none "transcribe"
      = (.error (.http .requestError),
         List.replicate 3 ⟨"audio.wav", [7], "transcribe", none⟩)
    ∧ generate_sound_effect ⟨true, "http://gpu:8001", 300, 3⟩
        (fun _ => .transportError) "rain" 5 100
      = (.error (.http .requestError),
         List.replicate 3 ⟨"rain", 5, 100⟩)
    ∧ isolate_vocals ⟨true, "http://gpu:8001", 300, 3⟩
        (fun _ => .transportError) [7] "audio.wav" "vocals,no_vocals"
      = (.error (.http .requestError),
         List.replicate 3 ⟨"audio.wav", [7], "vocals,no_vocals"⟩)
    ∧ clone_voice ⟨true, "http://gpu:8001", 300, 3⟩
        (fun _ => .transportError) [[7]] ["a.wav"] "my-voice"
      = (.error (.http .requestError),
         List.replicate 3 ⟨["a.wav"], [[7]], "my-voice"⟩) :=
  C2_retry_exhaustion ⟨true, "http://gpu:8001", 300, 3⟩
    (fun _ => .transportError) "hello" "en" none 1 "wav" [7]
    "audio.wav" none "transcribe" "rain" 5 100 [7] "audio.wav"
    "vocals,no_vocals" [[7]] ["a.wav"] "my-voice" rfl
    (by decide) (fun j _ => trivial)

/-- C3 counterexample: a backend answering every request with a 4xx
(status 400) is called THREE times, not once, by a client configured
with three retry attempts — `except httpx.HTTPStatusError` catches 4xx
and 5xx alike, so 4xx is not terminal.  Shown for both the TTS and the
STT operation. -/
theorem C3_counterexample :
    (generate_tts ⟨true, "http://gpu:8001", 300, 3⟩
      (fun _ => .response 400 []) "hello" "en" none 1 "wav").2.length = 3
    ∧ (generate_tts ⟨true, "http://gpu:8001", 300, 3⟩
      (fun _ => .response 400 []) "hello" "en" none 1 "wav").2.length ≠ 1
    ∧ (transcribe_audio ⟨true, "http://gpu:8001", 300, 3⟩
      (fun _ => .response 400 []) [7] "audio.wav" none
      "transcribe").2.length = 3 := by
  decide

/-- C3 (amended): a 4xx response is retried exactly like a transient
failure by EVERY inference operation of the client: with
`retry_attempts = N ≥ 1` against a backend answering only 4xx, each of
the five operations issues exactly N requests and then re-raises the
last `HTTPStatusError` (the first two catch `httpx.HTTPStatusError`
explicitly, the other three catch it through `except Exception`). -/
theorem C3_amended_4xx_retried (cfg : GPUWorkerConfig)
    (send : ℕ → HttpResult) (text language : String)
    (speaker_wav_url : Option String) (speed : ℚ)
    (output_format : String) (audio_data : List ℕ) (filename : String)
    (language2 : Option String) (task : String) (prompt : String)
    (duration : ℚ) (num_inference_steps : ℕ) (audio_data2 : List ℕ)
    (filename2 : String) (stems : String)
    (audio_files : List (List ℕ)) (filenames : List String)
    (voice_name : String)
    (hen : cfg.enabled = true) (hn : 1 ≤ cfg.retry_attempts)
    (hfail : ∀ j, j < cfg.retry_attempts → Is4xxResponse (send j)) :
    generate_tts cfg send text language speaker_wav_url speed
        output_format
      = (.error (.http (failureOf (send (cfg.retry_attempts - 1)))),
         List.replicate cfg.retry_attempts
           ⟨text, language, speed, output_format, speaker_wav_url⟩)
    ∧ transcribe_audio cfg send audio_data filename language2 task
      = (.error (.http (failureOf (send (cfg.retry_attempts - 1)))),
         List.replicate cfg.retry_attempts
           ⟨filename, audio_data, task, language2⟩)
    ∧ generate_sound_effect cfg send prompt duration
        num_inference_steps
      = (.error (.http (failureOf (send (cfg.retry_attempts - 1)))),
         List.replicate cfg.retry_attempts
           ⟨prompt, duration, num_inference_steps⟩)
    ∧ isolate_vocals cfg send audio_data2 filename2 stems
      = (.error (.http (failureOf (send (cfg.retry_attempts - 1)))),
         List.replicate cfg.retry_attempts
           ⟨filename2, audio_data2, stems⟩)
    ∧ clone_voice cfg send audio_files filenames voice_name
      = (.error (.http (failureOf (send (cfg.retry_attempts - 1)))),
         List.replicate cfg.retry_attempts
           ⟨filenames, audio_files, voice_name⟩) := by
  have hout : ∀ j, j < cfg.retry_attempts →
      attemptOutcome (send j) = .error (failureOf (send j)) :=
    fun j hj => attemptOutcome_4xx (hfail j hj)
  refine ⟨?_, ?_, ?_, ?_, ?_⟩ <;>
  · simp only [generate_tts, transcribe_audio, generate_sound_effect,
      isolate_vocals, clone_voice, hen]
    rw [if_neg (by simp)]
    exact clientOp_all_error send _ cfg.retry_attempts hn hout

/-- C3 (amended) witness: a backend answering 404 to everything is
called three times by each of the five operations. -/
theorem C3_amended_4xx_retried_witness :
    generate_tts ⟨true, "http://gpu:8001", 300, 3⟩
        (fun _ => .response 404 [1]) "hello" "en" none 1 "wav"
      = (.error (.http (.statusError 404)),
         List.replicate 3 ⟨"hello", "en", 1, "wav", none⟩)
    ∧ transcribe_audio ⟨true, "http://gpu:8001", 300, 3⟩
        (fun _ => .response 404 [1]) [7] "audio.wav" none "transcribe"
      = (.error (.http (.statusError 404)),
         List.replicate 3 ⟨"audio.wav", [7], "transcribe", none⟩)
    ∧ generate_sound_effect ⟨true, "http://gpu:8001", 300, 3⟩
        (fun _ => .response 404 [1]) "rain" 5 100
      = (.error (.http (.statusError 404)),
         List.replicate 3 ⟨"rain", 5, 100⟩)
    ∧ isolate_vocals ⟨true, "http://gpu:8001", 300, 3⟩
        (fun _ => .response 404 [1]) [7] "audio.wav" "vocals,no_vocals"
      = (.error (.http (.statusError 404)),
         List.replicate 3 ⟨"audio.wav", [7], "vocals,no_vocals"⟩)
    ∧ clone_voice ⟨true, "http://gpu:8001", 300, 3⟩
        (fun _ => .response 404 [1]) [[7]] ["a.wav"] "my-voice"
      = (.error (.http (.statusError 404)),
         List.replicate 3 ⟨["a.wav"], [[7]], "my-voice"⟩) :=
  C3_amended_4xx_retried ⟨true, "http://gpu:8001", 300, 3⟩
    (fun _ => .response 404 [1]) "hello" "en" none 1 "wav" [7]
    "audio.wav" none "transcribe" "rain" 5 100 [7] "audio.wav"
    "vocals,no_vocals" [[7]] ["a.wav"] "my-voice" rfl (by decide)
    (fun j _ => by constructor <;> decide)

/-- C5: with `enabled = false`, every remote-inference operation
(synthesize, transcribe, sfx-generate, isolate, clone-voice) fails
immediately with the configuration `RuntimeError` and issues zero
outbound requests — the request log is empty. -/
theorem C5_disabled_no_requests (cfg : GPUWorkerConfig)
    (send : ℕ → HttpResult) (text language : String)
    (speaker_wav_url : Option String) (speed : ℚ)
    (output_format : String) (audio_data : List ℕ) (filename : String)
    (language2 : Option String) (task : String) (prompt : String)
    (duration : ℚ) (num_inference_steps : ℕ) (audio_data2 : List ℕ)
    (filename2 : String) (stems : String)
    (audio_files : List (List ℕ)) (filenames : List String)
    (voice_name : String)
    (hdis : cfg.enabled = false) :
    generate_tts cfg send text language speaker_wav_url speed
        output_format = (.error .notEnabled, [])
    ∧ transcribe_audio cfg send audio_data filename language2 task
        = (.error .notEnabled, [])
    ∧ generate_sound_effect cfg send prompt duration
        num_inference_steps = (.error .notEnabled, [])
    ∧ isolate_vocals cfg send audio_data2 filename2 stems
        = (.error .notEnabled, [])
    ∧ clone_voice cfg send audio_files filenames voice_name
        = (.error .notEnabled, []) := by
  refine ⟨?_, ?_, ?_, ?_, ?_⟩ <;>
    simp [generate_tts, transcribe_audio, generate_sound_effect,
      isolate_vocals, clone_voice, hdis]

/-- C5 witness: at a concrete disabled configuration, all five
operations return the configuration error with an empty request log. -/
theorem C5_disabled_no_requests_witness :
    generate_tts ⟨false, "http://gpu:8001", 300, 3⟩
        (fun _ => .response 200 [1]) "hello" "en" none 1 "wav"
        = (.error .notEnabled, [])
    ∧ transcribe_audio ⟨false, "http://gpu:8001", 300, 3⟩
        (fun _ => .response 200 [1]) [7] "audio.wav" none "transcribe"
        = (.error .notEnabled, [])
    ∧ generate_sound_effect ⟨false, "http://gpu:8001", 300, 3⟩
        (fun _ => .response 200 [1]) "rain" 5 100
        = (.error .notEnabled, [])
    ∧ isolate_vocals ⟨false, "http://gpu:8001", 300, 3⟩
        (fun _ => .response 200 [1]) [7] "audio.wav" "vocals,no_vocals"
        = (.error .notEnabled, [])
    ∧ clone_voice ⟨false, "http://gpu:8001", 300, 3⟩
        (fun _ => .response 200 [1]) [[7]] ["a.wav"] "my-voice"
        = (.error .notEnabled, []) :=
  C5_disabled_no_requests ⟨false, "http://gpu:8001", 300, 3⟩
    (fun _ => .response 200 [1]) "hello" "en" none 1 "wav" [7]
    "audio.wav" none "transcribe" "rain" 5 100 [7] "audio.wav"
    "vocals,no_vocals" [[7]] ["a.wav"] "my-voice" rfl

/-- C9: the health check issues exactly one request (no retry loop);
a 2xx answer yields the decoded body, and ANY failure yields the
`{"status": "offline", "error": …}` status object — the function's
codomain has no exception channel, so nothing is raised to the
caller. -/
theorem C9_health_check_single_attempt (r : HttpResult) :
    (health_check r).2 = 1
    ∧ (∀ body, attemptOutcome r = .ok body
        → (health_check r).1 = .ok body)
    ∧ (∀ e, attemptOutcome r = .error e
        → (health_check r).1 = .offline e) := by
  refine ⟨?_, ?_, ?_⟩
  · cases hr : attemptOutcome r <;> simp [health_check, hr]
  · intro body hb
    simp [health_check, hb]
  · intro e he
    simp [health_check, he]

/-- C9 witness: a health check against an unreachable worker makes one
request and returns the offline status object. -/
theorem C9_health_check_single_attempt_witness :
    (health_check .transportError).2 = 1
    ∧ (health_check .transportError).1 = .offline .requestError :=
  ⟨(C9_health_check_single_attempt .transportError).1,
   (C9_health_check_single_attempt .transportError).2.2
     .requestError rfl⟩

/-- C10: `get_usage` only evicts expired timestamps and returns the
remaining count: its resulting set is a subset of the original (no
entry is ever added), and a subsequent admission check — same key,
same window, at any later or equal time — produces exactly the same
outcome and state as if `get_usage` had never run, so consulting usage
consumes no quota. -/
theorem C10_get_usage_pure_query (s : Finset ℤ)
    (window_seconds t1 t2 limit : ℤ) (h12 : t1 ≤ t2) :
    (get_usageOn s window_seconds t1).2 ⊆ s
    ∧ (get_usageOn s window_seconds t1).1
        = (get_usageOn s window_seconds t1).2.card
    ∧ is_allowedOn (get_usageOn s window_seconds t1).2 limit
        window_seconds t2
      = is_allowedOn s limit window_seconds t2 := by
  refine ⟨?_, rfl, ?_⟩
  · simp only [get_usageOn, zremrangebyscore]
    exact Finset.filter_subset _ _
  · have h := zrem_zrem s (t1 - window_seconds) (t2 - window_seconds)
      (by omega)
    simp only [is_allowedOn, get_usageOn, h]

/-- C10 witness: querying usage of `{0, 30}` at time 50 (window 60)
then checking admission at time 100 gives the same result as checking
directly. -/
theorem C10_get_usage_pure_query_witness :
    (get_usageOn {0, 30} 60 50).2 ⊆ ({0, 30} : Finset ℤ)
    ∧ (get_usageOn {0, 30} 60 50).1 = (get_usageOn {0, 30} 60 50).2.card
    ∧ is_allowedOn (get_usageOn {0, 30} 60 50).2 2 60 100
        = is_allowedOn {0, 30} 2 60 100 :=
  C10_get_usage_pure_query {0, 30} 60 50 100 2 (by decide)

end VoiceForge
